import Mathlib

/-!
Shallow embedding of the post-scheduling and publishing subsystem of the
content-factory backend: the Telegram delivery handler
(`src/app/services/telegram_handler.py`), the scheduler service
(`src/app/services/scheduler_service.py`) and the `Schedule` data model
(`src/database/models.py`).  Timestamps are POSIX seconds as `Int`
(mirroring `int(scheduled_time.timestamp())`); the HTTP layer is embedded
as an explicit outcome parameter; exceptions are `Except` values.
-/

namespace ContentFactory

/-- Application settings (`src/core/config.py`): the scheduler and handler
only read the Telegram channel id, an integer with the default shown in
`Settings.TELEGRAM_CHANNEL_ID`. -/
structure Settings where
  telegramChannelId : Int
  deriving Repr, DecidableEq

/-- The default channel id from `core/config.py`. -/
def defaultSettings : Settings :=
  { telegramChannelId := -1001234567890 }

/-- Outcome of the single `aiohttp` POST performed inside each handler
method: either the server answered with an HTTP status code, or some
exception was raised during the request. -/
inductive HttpOutcome where
  | response (status : Nat)
  | raised
  deriving Repr, DecidableEq

/-- The JSON body built by `TelegramHandler.send_message`
(`telegram_handler.py` lines 26-31). -/
structure SendMessageRequest where
  chatId : Int
  text : String
  parseMode : String
  disableWebPagePreview : Bool
  deriving Repr, DecidableEq

/-- `TelegramHandler.send_message(text, parse_mode="HTML")`
(`telegram_handler.py` lines 21-41): builds the request against the
configured channel id and returns `True` iff the response status is 200;
any non-200 status or exception yields `False` (the `try`/`except` wraps
the whole body, so the method never raises). -/
def TelegramHandler.sendMessage (h : Settings) (text : String)
    (parseMode : String) (o : HttpOutcome) : SendMessageRequest × Bool :=
  ({ chatId := h.telegramChannelId, text := text, parseMode := parseMode,
     disableWebPagePreview := false },
   match o with
   | HttpOutcome.response status => if status = 200 then true else false
   | HttpOutcome.raised => false)

/-- The JSON body built by `TelegramHandler.send_photo`
(`telegram_handler.py` lines 48-53). -/
structure SendPhotoRequest where
  chatId : Int
  photo : String
  caption : String
  parseMode : String
  deriving Repr, DecidableEq

/-- `TelegramHandler.send_photo(photo_url, caption="", parse_mode="HTML")`
(`telegram_handler.py` lines 43-63): same success/failure shape as
`send_message`. -/
def TelegramHandler.sendPhoto (h : Settings) (photoUrl : String)
    (caption : String) (parseMode : String) (o : HttpOutcome) :
    SendPhotoRequest × Bool :=
  ({ chatId := h.telegramChannelId, photo := photoUrl, caption := caption,
     parseMode := parseMode },
   match o with
   | HttpOutcome.response status => if status = 200 then true else false
   | HttpOutcome.raised => false)

/-- One input dict for `send_album`: keys `type`, `media`, `caption`, each
possibly absent (`item.get`). -/
structure MediaItem where
  itemType : Option String
  media : Option String
  caption : Option String
  deriving Repr, DecidableEq

/-- One element of the `media` array built by `send_album`
(`telegram_handler.py` lines 75-83). -/
structure MediaObj where
  objType : String
  media : Option String
  caption : Option String
  parseMode : Option String
  deriving Repr, DecidableEq

/-- The per-item construction in `send_album`: `type` defaults to
`"photo"`; `caption` and `parse_mode` are only set when the caption is
truthy (present and non-empty). -/
def buildMediaObj (it : MediaItem) : MediaObj :=
  let base : MediaObj :=
    { objType := it.itemType.getD "photo", media := it.media,
      caption := none, parseMode := none }
  match it.caption with
  | some c =>
      if c ≠ "" then { base with caption := some c, parseMode := some "HTML" }
      else base
  | none => base

/-- The JSON body built by `TelegramHandler.send_album`
(`telegram_handler.py` lines 85-88). -/
structure AlbumRequest where
  chatId : Int
  media : List MediaObj
  deriving Repr, DecidableEq

/-- `TelegramHandler.send_album(media_items)` (`telegram_handler.py` lines
65-98): same success/failure shape as `send_message`. -/
def TelegramHandler.sendAlbum (h : Settings) (items : List MediaItem)
    (o : HttpOutcome) : AlbumRequest × Bool :=
  ({ chatId := h.telegramChannelId, media := items.map buildMediaObj },
   match o with
   | HttpOutcome.response status => if status = 200 then true else false
   | HttpOutcome.raised => false)

/-- The attribute names defined on the `TelegramHandler` class
(`telegram_handler.py` lines 13-131): `__init__`, `send_message`,
`send_photo`, `send_album`, `get_channel_info`, `test_connection` -- and
nothing else.  In particular there is no `send_media`. -/
def TelegramHandler.methodNames : List String :=
  ["__init__", "send_message", "send_photo", "send_album",
   "get_channel_info", "test_connection"]

/-- Python attribute lookup on a `TelegramHandler` instance: succeeds
exactly for the names the class defines. -/
def TelegramHandler.hasAttr (name : String) : Bool :=
  TelegramHandler.methodNames.contains name

/-- Post-status enumeration `ContentStatus` from `database/models.py`
lines 12-18. -/
inductive ContentStatus where
  | draft
  | scheduled
  | published
  | failed
  | archived
  deriving Repr, DecidableEq

/-- The `Schedule` row from `database/models.py` lines 84-101 (the columns
the scheduling claims mention). -/
structure Schedule where
  postId : Nat
  scheduledTime : Int
  status : ContentStatus
  retryCount : Nat
  maxRetries : Nat
  errorMessage : Option String
  deriving Repr, DecidableEq

/-- A `Schedule` row as the ORM constructs it, with the column defaults of
`database/models.py` lines 92-95: `status = SCHEDULED`, `retry_count = 0`,
`max_retries = 3`, `error_message = NULL`.  No code in the repository ever
passes explicit values for these columns or updates them afterwards. -/
def mkSchedule (postId : Nat) (scheduledTime : Int) : Schedule :=
  { postId := postId, scheduledTime := scheduledTime,
    status := ContentStatus.scheduled, retryCount := 0, maxRetries := 3,
    errorMessage := none }

/-- The five fields of a parsed crontab expression, as
`CronTrigger.from_crontab` assigns them. -/
structure CronSpec where
  minute : String
  hour : String
  day : String
  month : String
  dayOfWeek : String
  deriving Repr, DecidableEq

/-- The error taxonomy of the spec (section 7): a malformed cron
expression or an unknown timezone name.  In the source these surface as
the scheduling library's `ValueError` and `pytz.UnknownTimeZoneError`,
both re-raised to the caller by `schedule_recurring_post`. -/
inductive InvalidTriggerError where
  | invalidCron (expr : String)
  | unknownTimezone (name : String)
  deriving Repr, DecidableEq

/-- Python `str.split()`: split on runs of whitespace, dropping empty
pieces (grouping is done over the character list so that the definition
reduces by computation). -/
def splitFields (expr : String) : List String :=
  (expr.toList.foldr
    (fun c acc =>
      if c.isWhitespace then [] :: acc
      else (c :: acc.headD []) :: acc.tail)
    [[]]).filterMap (fun w => if w = [] then none else some (String.mk w))

/-- A crontab field may contain digits and the punctuation of crontab
range/step/list patterns. -/
def cronFieldOk (f : String) : Bool :=
  f.toList.all fun c =>
    c.isDigit || c == '*' || c == ',' || c == '-' || c == '/'

/-- `CronTrigger.from_crontab(expr, ...)` of the scheduling library as used
by `schedule_recurring_post`: the expression must split into exactly five
fields (else `ValueError: Wrong number of fields`), each a well-formed
crontab field; otherwise the call raises.  The field syntax is modelled
over the numeric crontab pattern charset. -/
def CronTrigger.fromCrontab (expr : String) :
    Except InvalidTriggerError CronSpec :=
  match splitFields expr with
  | [m, h, d, mo, dw] =>
      if cronFieldOk m && cronFieldOk h && cronFieldOk d && cronFieldOk mo
          && cronFieldOk dw then
        Except.ok { minute := m, hour := h, day := d, month := mo,
                    dayOfWeek := dw }
      else Except.error (InvalidTriggerError.invalidCron expr)
  | _ => Except.error (InvalidTriggerError.invalidCron expr)

/-- A representative fragment of the tz database, modelling the domain of
`pytz.timezone`. -/
def knownTimezones : List String :=
  ["UTC", "Europe/Moscow", "Europe/London", "America/New_York",
   "Asia/Tokyo"]

/-- `pytz.timezone(name)`: returns the zone for a known name and raises
`UnknownTimeZoneError` otherwise (modelled over `knownTimezones`). -/
def pytzTimezone (name : String) : Except InvalidTriggerError String :=
  if knownTimezones.contains name then Except.ok name
  else Except.error (InvalidTriggerError.unknownTimezone name)

/-- A job trigger as registered by the scheduler service: a one-shot
`DateTrigger(run_date)` or a `CronTrigger` with its timezone. -/
inductive Trigger where
  | date (runDate : Int)
  | cron (spec : CronSpec) (tz : String)
  deriving Repr, DecidableEq

/-- One job in the scheduling library's job store, as `add_job` creates it
from `schedule_post` / `schedule_recurring_post`: the id, the trigger, the
`args=[post_id, chat_id, content, media_urls]` of the `_publish_post`
callback, and the stored next run time (`DateTrigger` yields its
`run_date`; for a cron trigger the library computes the first
occurrence). -/
structure ApJob where
  id : String
  postId : Nat
  trigger : Trigger
  nextRunTime : Option Int
  chatId : String
  content : String
  mediaUrls : List String
  deriving Repr, DecidableEq

/-- State of a `SchedulerService` instance: the library's job store
(keyed by `ApJob.id`), the service's own `self._jobs` map from post id to
job id, and the `schedules` table rows of the database. -/
structure SchedulerState where
  jobs : List ApJob
  jobsMap : List (Nat × String)
  schedules : List Schedule
  deriving Repr, DecidableEq

/-- The state of a freshly constructed service over an empty database. -/
def initState : SchedulerState :=
  { jobs := [], jobsMap := [], schedules := [] }

/-- `add_job(..., id=job_id, replace_existing=True)`: insert the job,
replacing any stored job with the same id. -/
def putJob (js : List ApJob) (j : ApJob) : List ApJob :=
  j :: js.filter (fun k => k.id != j.id)

/-- Assignment `self._jobs[post_id] = job_id`. -/
def mapPut (m : List (Nat × String)) (k : Nat) (v : String) :
    List (Nat × String) :=
  (k, v) :: m.filter (fun e => e.1 != k)

/-- Lookup `self._jobs.get(post_id)` / the `post_id in self._jobs` test. -/
def mapFind (m : List (Nat × String)) (k : Nat) : Option String :=
  (m.find? (fun e => e.1 == k)).map (fun e => e.2)

/-- Deletion `del self._jobs[post_id]`. -/
def mapErase (m : List (Nat × String)) (k : Nat) : List (Nat × String) :=
  m.filter (fun e => e.1 != k)

/-- The one-shot job id `f"post_{post_id}_{int(scheduled_time.timestamp())}"`
(`scheduler_service.py` line 50). -/
def jobIdOnce (postId : Nat) (ts : Int) : String :=
  "post_" ++ toString postId ++ "_" ++ toString ts

/-- The recurring job id `f"recurring_post_{post_id}"`
(`scheduler_service.py` line 83). -/
def jobIdRecurring (postId : Nat) : String :=
  "recurring_post_" ++ toString postId

/-- `SchedulerService.schedule_post` (`scheduler_service.py` lines 36-67):
derives the job id from the post id and the instant, registers a
`DateTrigger` job with `replace_existing=True`, records the id in
`self._jobs`, and returns the job id.  No validation is applied to
`scheduled_time`; past instants are accepted as-is. -/
def SchedulerService.schedulePost (s : SchedulerState) (postId : Nat)
    (scheduledTime : Int) (chatId content : String)
    (mediaUrls : List String) : String × SchedulerState :=
  let jid := jobIdOnce postId scheduledTime
  let job : ApJob :=
    { id := jid, postId := postId, trigger := Trigger.date scheduledTime,
      nextRunTime := some scheduledTime, chatId := chatId,
      content := content, mediaUrls := mediaUrls }
  (jid, { s with jobs := putJob s.jobs job,
                 jobsMap := mapPut s.jobsMap postId jid })

/-- `SchedulerService.schedule_recurring_post` (`scheduler_service.py`
lines 69-100): evaluates `pytz.timezone(timezone)` and
`CronTrigger.from_crontab(cron_expression, ...)`; either failure is
logged and re-raised to the caller, and no job is registered.  On success
it registers a cron job (args carry `None` for media) with
`replace_existing=True`.  `firstFire` is the first occurrence instant the
library computes from the cron spec; no claim depends on that calendar
arithmetic, so it is passed in explicitly. -/
def SchedulerService.scheduleRecurringPost (s : SchedulerState)
    (postId : Nat) (cronExpr : String) (chatId content : String)
    (tzName : String) (firstFire : Int) :
    Except InvalidTriggerError (String × SchedulerState) := do
  let tz ← pytzTimezone tzName
  let spec ← CronTrigger.fromCrontab cronExpr
  let jid := jobIdRecurring postId
  let job : ApJob :=
    { id := jid, postId := postId, trigger := Trigger.cron spec tz,
      nextRunTime := some firstFire, chatId := chatId, content := content,
      mediaUrls := [] }
  pure (jid, { s with jobs := putJob s.jobs job,
                      jobsMap := mapPut s.jobsMap postId jid })

/-- `SchedulerService.cancel_scheduled_post` (`scheduler_service.py` lines
102-121): if `post_id` is in `self._jobs`, call
`scheduler.remove_job(job_id)` -- which raises `JobLookupError` when the
job is no longer in the store, caught by the `except` clause which
returns `False` (leaving the stale `_jobs` entry in place) -- then delete
the map entry and return `True`; if `post_id` is unknown, return
`False`. -/
def SchedulerService.cancelScheduledPost (s : SchedulerState)
    (postId : Nat) : Bool × SchedulerState :=
  match mapFind s.jobsMap postId with
  | some jid =>
      if s.jobs.any (fun j => j.id == jid) then
        (true, { s with jobs := s.jobs.filter (fun j => j.id != jid),
                        jobsMap := mapErase s.jobsMap postId })
      else (false, s)
  | none => (false, s)

/-- Result of one invocation of the `_publish_post` callback: either the
body returned normally, or an `AttributeError` escaped (re-raised by the
`except` clause after logging). -/
inductive PublishResult where
  | ok
  | attributeErr (attr : String)
  deriving Repr, DecidableEq

/-- `SchedulerService._publish_post` (`scheduler_service.py` lines
123-145), as a function of the delivery outcome of the one HTTP call it
can make.  With truthy `media_urls` it evaluates
`self.telegram_handler.send_media(...)`: the attribute lookup fails
(`TelegramHandler` defines no `send_media`), so an `AttributeError` is
raised before any request is sent.  Without media it calls
`send_message(chat_id, content)` *positionally*, so `chat_id` binds the
`text` parameter and `content` binds `parse_mode`; the boolean result is
discarded and the body returns normally either way.  Returns the list of
requests actually issued together with the outcome of the call. -/
def SchedulerService.publishPost (h : Settings) (_postId : Nat)
    (chatId content : String) (mediaUrls : List String) (o : HttpOutcome) :
    List SendMessageRequest × PublishResult :=
  match mediaUrls with
  | _ :: _ =>
      if TelegramHandler.hasAttr "send_media" then ([], PublishResult.ok)
      else ([], PublishResult.attributeErr "send_media")
  | [] =>
      let r := TelegramHandler.sendMessage h chatId content o
      ([r.1], PublishResult.ok)

/-- The jobs due at `now`: those whose stored next run time has been
reached. -/
def SchedulerState.listDue (s : SchedulerState) (now : Int) : List ApJob :=
  s.jobs.filter fun j =>
    match j.nextRunTime with
    | some t => decide (t ≤ now)
    | none => false

/-- One scheduling tick at instant `now` (the spec's `run_once`; in the
source this work is done by the background scheduler's processing loop,
which is not part of the repository, so its dispatch is modelled from the
spec sections 4.2-4.3): every due job's `_publish_post` callback runs with
its stored args; a job whose trigger yields no further fire time (a
`DateTrigger`) is then removed from the store, while a cron job stays with
its next occurrence (`nextFire`, computed by the library from the cron
spec).  `outcomes` gives the delivery outcome per job id.  Callback
results -- including exceptions -- are only logged and never feed back
into the store, which the definition reflects by computing the surviving
jobs independently of the publish results. -/
def SchedulerService.runOnce (h : Settings) (s : SchedulerState)
    (now : Int) (outcomes : String → HttpOutcome)
    (nextFire : String → Int) :
    SchedulerState × List (String × PublishResult) :=
  let due := s.listDue now
  let results := due.map fun j =>
    (j.id,
     (SchedulerService.publishPost h j.postId j.chatId j.content
        j.mediaUrls (outcomes j.id)).2)
  let keep := s.jobs.filterMap fun j =>
    if due.any (fun d => d.id == j.id) then
      match j.trigger with
      | Trigger.date _ => none
      | Trigger.cron _ _ =>
          some { j with nextRunTime := some (nextFire j.id) }
    else some j
  ({ s with jobs := keep }, results)

/-- The states the system can reach from a fresh service and empty
database by the operations the repository defines: registering a one-shot
or recurring post, cancelling, inserting a `Schedule` row with the model's
column defaults, and a scheduling tick. -/
inductive Reachable : SchedulerState → Prop where
  | init : Reachable initState
  | schedulePost (s : SchedulerState) (p : Nat) (t : Int)
      (chat content : String) (media : List String) :
      Reachable s →
      Reachable (SchedulerService.schedulePost s p t chat content media).2
  | scheduleRecurring (s : SchedulerState) (p : Nat)
      (expr chat content tz : String) (ff : Int) (jid : String)
      (s' : SchedulerState) :
      Reachable s →
      SchedulerService.scheduleRecurringPost s p expr chat content tz ff
        = Except.ok (jid, s') →
      Reachable s'
  | cancel (s : SchedulerState) (p : Nat) :
      Reachable s →
      Reachable (SchedulerService.cancelScheduledPost s p).2
  | createSchedule (s : SchedulerState) (p : Nat) (t : Int) :
      Reachable s →
      Reachable { s with schedules := mkSchedule p t :: s.schedules }
  | tick (s : SchedulerState) (h : Settings) (now : Int)
      (oc : String → HttpOutcome) (nf : String → Int) :
      Reachable s →
      Reachable (SchedulerService.runOnce h s now oc nf).1

/-- Whether an `Except` value carries a success. -/
def exceptIsOk {ε α : Type} : Except ε α → Bool
  | Except.ok _ => true
  | Except.error _ => false

/-! ## Helper lemmas about the job store -/

/-- Re-inserting under an identical id overwrites: the earlier entry is
filtered away and the store is as if only the second insert happened. -/
theorem putJob_putJob_eq (js : List ApJob) (j1 j2 : ApJob)
    (h : j1.id = j2.id) : putJob (putJob js j1) j2 = putJob js j2 := by
  simp only [putJob, h, List.filter_cons, bne_self_eq_false,
    Bool.false_eq_true, if_false, List.filter_filter, Bool.and_self]

/-- Same for the service's `post_id → job_id` map. -/
theorem mapPut_mapPut_eq (m : List (Nat × String)) (k : Nat)
    (v1 v2 : String) : mapPut (mapPut m k v1) k v2 = mapPut m k v2 := by
  simp only [mapPut, List.filter_cons, bne_self_eq_false,
    Bool.false_eq_true, if_false, List.filter_filter, Bool.and_self]

/-- After an insert, exactly the inserted job carries its id. -/
theorem filter_putJob_self (js : List ApJob) (j : ApJob) :
    (putJob js j).filter (fun k => k.id == j.id) = [j] := by
  simp only [putJob, List.filter_cons, beq_self_eq_true, if_true,
    List.filter_filter]
  rw [List.filter_eq_nil_iff.mpr]
  intro a _
  simp [bne]

/-! ## Claims -/

/-- C10: `TelegramHandler.send_message`, `send_photo` and `send_album` are
total with respect to errors: each returns `True` exactly when the
Telegram API answers HTTP 200, and `False` on any other status or any
exception; none of them raises (they are total functions into `Bool`),
and the boolean carries no Transient-versus-Permanent distinction -- the
result depends only on whether the outcome was a 200 response. -/
theorem telegram_send_results_total :
    ∀ (h : Settings) (text pm photo cap : String) (items : List MediaItem)
      (o : HttpOutcome),
    ((TelegramHandler.sendMessage h text pm o).2 = true
        ↔ o = HttpOutcome.response 200)
    ∧ ((TelegramHandler.sendPhoto h photo cap pm o).2 = true
        ↔ o = HttpOutcome.response 200)
    ∧ ((TelegramHandler.sendAlbum h items o).2 = true
        ↔ o = HttpOutcome.response 200) := by
  intro h text pm photo cap items o
  refine ⟨?_, ?_, ?_⟩ <;>
    cases o with
    | response status =>
        simp only [TelegramHandler.sendMessage, TelegramHandler.sendPhoto,
          TelegramHandler.sendAlbum, HttpOutcome.response.injEq]
        split <;> simp_all
    | raised => simp [TelegramHandler.sendMessage,
        TelegramHandler.sendPhoto, TelegramHandler.sendAlbum]

/-- C9: without media, `_publish_post` calls
`send_message(chat_id, content)` positionally, so the job's `chat_id`
lands in the `text` parameter and its `content` in `parse_mode`: the one
request issued carries the chat id string as its message text (and the
content as parse mode), never the job's content. -/
theorem publish_sends_chat_id_as_text :
    ∀ (h : Settings) (p : Nat) (chatId content : String) (o : HttpOutcome),
    chatId ≠ content →
    (SchedulerService.publishPost h p chatId content [] o).1
      = [{ chatId := h.telegramChannelId, text := chatId,
           parseMode := content, disableWebPagePreview := false }]
    ∧ ∀ r ∈ (SchedulerService.publishPost h p chatId content [] o).1,
        r.text ≠ content := by
  intro h p chatId content o hne
  refine ⟨rfl, ?_⟩
  intro r hr
  have : r = { chatId := h.telegramChannelId, text := chatId,
               parseMode := content, disableWebPagePreview := false } := by
    simpa [SchedulerService.publishPost, TelegramHandler.sendMessage]
      using hr
  rw [this]
  exact hne

/-- Witness for C9 at a concrete job: chat id `"123"`, content
`"hello"`. -/
theorem publish_sends_chat_id_as_text_witness :
    (SchedulerService.publishPost defaultSettings 1 "123" "hello" []
        HttpOutcome.raised).1
      = [{ chatId := defaultSettings.telegramChannelId, text := "123",
           parseMode := "hello", disableWebPagePreview := false }] :=
  (publish_sends_chat_id_as_text defaultSettings 1 "123" "hello"
    HttpOutcome.raised (by decide)).1

/-- C8: for a job with a non-empty media list, `_publish_post` looks up
`send_media` on the handler; `TelegramHandler` defines no such method, so
the callback raises `AttributeError` before any request is issued and
delivery never succeeds. -/
theorem media_publish_attribute_error :
    ∀ (h : Settings) (p : Nat) (chatId content : String)
      (urls : List String) (o : HttpOutcome),
    urls ≠ [] →
    TelegramHandler.hasAttr "send_media" = false
    ∧ SchedulerService.publishPost h p chatId content urls o
        = ([], PublishResult.attributeErr "send_media") := by
  intro h p chatId content urls o hne
  refine ⟨by decide, ?_⟩
  cases urls with
  | nil => exact absurd rfl hne
  | cons a l =>
      simp [SchedulerService.publishPost, TelegramHandler.hasAttr,
        TelegramHandler.methodNames]

/-- Witness for C8 at a concrete job with one media URL. -/
theorem media_publish_attribute_error_witness :
    SchedulerService.publishPost defaultSettings 1 "c" "t" ["u"]
        (HttpOutcome.response 200)
      = ([], PublishResult.attributeErr "send_media") :=
  (media_publish_attribute_error defaultSettings 1 "c" "t" ["u"]
    (HttpOutcome.response 200) (by decide)).2

/-- C3: registering a recurring job with an unparseable cron expression or
an unknown timezone name fails synchronously: `schedule_recurring_post`
returns the trigger error to its caller (the `except` clause re-raises)
and, the result being an error, no job is ever added to the store -- there
is no fallback to a default schedule. -/
theorem invalid_trigger_fails_registration :
    ∀ (s : SchedulerState) (p : Nat) (expr chat content tzName : String)
      (ff : Int),
    exceptIsOk (CronTrigger.fromCrontab expr) = false
      ∨ exceptIsOk (pytzTimezone tzName) = false →
    exceptIsOk (SchedulerService.scheduleRecurringPost s p expr chat
        content tzName ff) = false := by
  intro s p expr chat content tz ff hbad
  unfold SchedulerService.scheduleRecurringPost
  cases htz : pytzTimezone tz with
  | error e => simp [htz, exceptIsOk, Except.bind, bind]
  | ok v =>
      cases hcr : CronTrigger.fromCrontab expr with
      | error e => simp [htz, hcr, exceptIsOk, Except.bind, bind]
      | ok spec =>
          rcases hbad with hb | hb <;> rw [hcr] at * <;> rw [htz] at * <;>
            simp [exceptIsOk] at hb

/-- Witness for C3: `"every monday"` does not split into five crontab
fields, so registration against it errors out. -/
theorem invalid_trigger_fails_registration_witness :
    exceptIsOk (SchedulerService.scheduleRecurringPost initState 9
        "every monday" "c" "t" "UTC" 0) = false :=
  invalid_trigger_fails_registration initState 9 "every monday" "c" "t"
    "UTC" 0 (Or.inl (by decide))

/-- C7: `schedule_post` applies no validation to the instant, so a past
instant is accepted (the call returns the derived job id), and every
one-shot job so registered -- with or without media -- has its stored
next run time at that past instant, which is `≤ now`: the next tick lists
it as due and fires it, dispatching its `_publish_post` callback with the
job's stored arguments (whatever that callback then returns). -/
theorem past_instant_fires_on_next_tick :
    ∀ (h : Settings) (s : SchedulerState) (p : Nat) (instant now : Int)
      (chat content : String) (media : List String)
      (oc : String → HttpOutcome) (nf : String → Int),
    instant ≤ now →
    (SchedulerService.schedulePost s p instant chat content media).1
        = jobIdOnce p instant
    ∧ (jobIdOnce p instant,
        (SchedulerService.publishPost h p chat content media
          (oc (jobIdOnce p instant))).2)
        ∈ (SchedulerService.runOnce h
            (SchedulerService.schedulePost s p instant chat content
              media).2 now oc nf).2 := by
  intro h s p instant now chat content media oc nf hle
  refine ⟨rfl, ?_⟩
  set j0 : ApJob :=
    { id := jobIdOnce p instant, postId := p,
      trigger := Trigger.date instant, nextRunTime := some instant,
      chatId := chat, content := content, mediaUrls := media } with hj0
  have hmem : j0 ∈
      (SchedulerService.schedulePost s p instant chat content
        media).2.jobs := by
    simp [SchedulerService.schedulePost, putJob, hj0]
  have hdue : j0 ∈
      (SchedulerService.schedulePost s p instant chat content
        media).2.listDue now := by
    refine List.mem_filter.mpr ⟨hmem, ?_⟩
    simp [hj0, hle]
  simp only [SchedulerService.runOnce]
  apply List.mem_map.mpr
  exact ⟨j0, hdue, rfl⟩

/-- Witness for C7: a media-bearing job registered for instant 100 is
dispatched at the tick at instant 200 (its callback result being the
`AttributeError` of the media path). -/
theorem past_instant_fires_on_next_tick_witness :
    (jobIdOnce 7 100,
      (SchedulerService.publishPost defaultSettings 7 "c" "t" ["u"]
        (HttpOutcome.response 200)).2)
      ∈ (SchedulerService.runOnce defaultSettings
          (SchedulerService.schedulePost initState 7 100 "c" "t"
            ["u"]).2
          200 (fun _ => HttpOutcome.response 200) (fun _ => 0)).2 :=
  (past_instant_fires_on_next_tick defaultSettings initState 7 100 200
    "c" "t" ["u"] (fun _ => HttpOutcome.response 200) (fun _ => 0)
    (by decide)).2

/-- C2: the one-shot job id is a pure function of the post id and the
trigger instant, and `add_job(..., replace_existing=True)` overwrites by
id, so registering twice with the same `(post_id, instant)` pair leaves
the state exactly as registering once (replacement, not duplication) with
exactly one stored job under that id; a recurring job's id depends on the
post id alone, so re-registering with the same arguments is likewise a
replacement -- the state is a fixed point of the second registration. -/
theorem reschedule_replaces_job :
    ∀ (s : SchedulerState) (p : Nat) (t : Int) (ch1 c1 ch2 c2 : String)
      (m1 m2 : List String) (expr ch c tz : String) (ff : Int)
      (r : String × SchedulerState),
    ((SchedulerService.schedulePost
          (SchedulerService.schedulePost s p t ch1 c1 m1).2
          p t ch2 c2 m2).2
        = (SchedulerService.schedulePost s p t ch2 c2 m2).2)
    ∧ (((SchedulerService.schedulePost
            (SchedulerService.schedulePost s p t ch1 c1 m1).2
            p t ch2 c2 m2).2.jobs.filter
          (fun j => j.id == jobIdOnce p t)).length = 1)
    ∧ (SchedulerService.scheduleRecurringPost s p expr ch c tz ff
          = Except.ok r →
        SchedulerService.scheduleRecurringPost r.2 p expr ch c tz ff
          = Except.ok r) := by
  intro s p t ch1 c1 ch2 c2 m1 m2 expr ch c tz ff r
  have hjobs := putJob_putJob_eq s.jobs
    { id := jobIdOnce p t, postId := p, trigger := Trigger.date t,
      nextRunTime := some t, chatId := ch1, content := c1,
      mediaUrls := m1 }
    { id := jobIdOnce p t, postId := p, trigger := Trigger.date t,
      nextRunTime := some t, chatId := ch2, content := c2,
      mediaUrls := m2 } rfl
  refine ⟨?_, ?_, ?_⟩
  · simp only [SchedulerService.schedulePost]
    rw [hjobs, mapPut_mapPut_eq]
  · simp only [SchedulerService.schedulePost]
    rw [hjobs]
    have := filter_putJob_self s.jobs
      { id := jobIdOnce p t, postId := p, trigger := Trigger.date t,
        nextRunTime := some t, chatId := ch2, content := c2,
        mediaUrls := m2 }
    rw [this]
    rfl
  · intro hok
    unfold SchedulerService.scheduleRecurringPost at hok ⊢
    cases htz : pytzTimezone tz with
    | error e => simp [htz, Except.bind, bind] at hok
    | ok v =>
        simp only [htz, Except.bind, bind] at hok ⊢
        cases hcr : CronTrigger.fromCrontab expr with
        | error e => simp [hcr, Except.bind, bind] at hok
        | ok spec =>
            simp only [hcr, pure, Except.pure, Except.ok.injEq]
              at hok ⊢
            rw [← hok]
            dsimp only
            rw [putJob_putJob_eq _ _ _ rfl, mapPut_mapPut_eq]

/-- The recurring job registered by the C2 witness. -/
def recJob1 : ApJob :=
  { id := jobIdRecurring 1, postId := 1,
    trigger := Trigger.cron
      { minute := "0", hour := "9", day := "*", month := "*",
        dayOfWeek := "1" } "UTC",
    nextRunTime := some 500, chatId := "ch", content := "c",
    mediaUrls := [] }

/-- The state after registering `recJob1` once from a fresh service. -/
def recState1 : SchedulerState :=
  { jobs := [recJob1], jobsMap := [(1, jobIdRecurring 1)],
    schedules := [] }

/-- Witness for C2: re-registering the Monday-09:00 job over `recState1`
returns the very same state. -/
theorem reschedule_replaces_job_witness :
    SchedulerService.scheduleRecurringPost recState1 1 "0 9 * * 1" "ch"
        "c" "UTC" 500
      = Except.ok (jobIdRecurring 1, recState1) :=
  (reschedule_replaces_job initState 1 0 "a" "x" "b" "y" [] []
      "0 9 * * 1" "ch" "c" "UTC" 500 (jobIdRecurring 1, recState1)).2.2
    (by rfl)

/-- C6: `cancel_scheduled_post` reports whether a job was actually found
and cancelled.  When the post is tracked and its job is still in the store
(pending), it returns `true` and the job is gone from the store, so no
later tick can fire it.  When the tracked job has already left the store
(a completed one-shot job: `remove_job` raises `JobLookupError`, caught to
return `false`), or the post is not tracked at all (never scheduled, or
already cancelled, which erases the tracking entry), it returns `false`
and changes nothing. -/
theorem cancel_reports_found :
    ∀ (s : SchedulerState) (p : Nat) (jid : String),
    (mapFind s.jobsMap p = some jid →
      (s.jobs.any (fun j => j.id == jid) = true →
        (SchedulerService.cancelScheduledPost s p).1 = true
        ∧ ∀ j ∈ (SchedulerService.cancelScheduledPost s p).2.jobs,
            j.id ≠ jid)
      ∧ (s.jobs.any (fun j => j.id == jid) = false →
        (SchedulerService.cancelScheduledPost s p).1 = false
        ∧ (SchedulerService.cancelScheduledPost s p).2 = s))
    ∧ (mapFind s.jobsMap p = none →
        (SchedulerService.cancelScheduledPost s p).1 = false
        ∧ (SchedulerService.cancelScheduledPost s p).2 = s) := by
  intro s p jid
  constructor
  · intro hfind
    constructor
    · intro hin
      unfold SchedulerService.cancelScheduledPost
      rw [hfind]
      dsimp only
      rw [if_pos hin]
      refine ⟨rfl, ?_⟩
      intro j hj
      have := (List.mem_filter.mp hj).2
      simpa [bne] using this
    · intro hout
      unfold SchedulerService.cancelScheduledPost
      rw [hfind]
      dsimp only
      rw [if_neg (by simp [hout])]
      exact ⟨rfl, rfl⟩
  · intro hnone
    unfold SchedulerService.cancelScheduledPost
    rw [hnone]
    exact ⟨rfl, rfl⟩

/-- A state with one pending job for post 3, as `schedule_post` leaves
it. -/
def pendState : SchedulerState :=
  (SchedulerService.schedulePost initState 3 100 "c" "t" []).2

/-- A state in which post 4's one-shot job has already fired and left the
store, while the service's `_jobs` map still holds the stale entry. -/
def staleState : SchedulerState :=
  { jobs := [], jobsMap := [(4, jobIdOnce 4 100)], schedules := [] }

/-- Witness for C6: cancelling a pending job returns `true`; cancelling a
completed (store-evicted) job returns `false`; cancelling an unknown post
returns `false`. -/
theorem cancel_reports_found_witness :
    (SchedulerService.cancelScheduledPost pendState 3).1 = true
    ∧ (SchedulerService.cancelScheduledPost staleState 4).1 = false
    ∧ (SchedulerService.cancelScheduledPost initState 5).1 = false :=
  ⟨(((cancel_reports_found pendState 3 (jobIdOnce 3 100)).1
      (by decide)).1 (by decide)).1,
   (((cancel_reports_found staleState 4 (jobIdOnce 4 100)).1
      (by decide)).2 (by decide)).1,
   ((cancel_reports_found initState 5 "none").2 (by decide)).1⟩

/-- Cancellation never touches the `schedules` table rows. -/
theorem cancel_preserves_schedules (s : SchedulerState) (p : Nat) :
    (SchedulerService.cancelScheduledPost s p).2.schedules
      = s.schedules := by
  unfold SchedulerService.cancelScheduledPost
  cases mapFind s.jobsMap p with
  | none => rfl
  | some jid =>
      dsimp only
      split <;> rfl

/-- A successful recurring registration never touches the `schedules`
table rows. -/
theorem scheduleRecurring_ok_schedules (s : SchedulerState) (p : Nat)
    (expr ch c tz : String) (ff : Int) (jid : String)
    (s' : SchedulerState)
    (h : SchedulerService.scheduleRecurringPost s p expr ch c tz ff
        = Except.ok (jid, s')) : s'.schedules = s.schedules := by
  unfold SchedulerService.scheduleRecurringPost at h
  cases htz : pytzTimezone tz with
  | error e => simp [htz, Except.bind, bind] at h
  | ok v =>
      simp only [htz, Except.bind, bind] at h
      cases hcr : CronTrigger.fromCrontab expr with
      | error e => simp [hcr, Except.bind, bind] at h
      | ok spec =>
          simp only [hcr, pure, Except.pure, Except.ok.injEq] at h
          have := congrArg (fun q : String × SchedulerState =>
            q.2.schedules) h
          simpa using this.symm

/-- C1: on every state the repository's operations can reach, every
`Schedule` row satisfies `retry_count ≤ max_retries`, and any row in which
`retry_count` exceeded `max_retries` would have `status = Failed`.  (In
the code this invariant is preserved trivially: rows are only ever created
with the column defaults `retry_count = 0 ≤ 3 = max_retries`, and no
operation -- in particular not the publish callback -- ever increments
`retry_count` or moves `status` to `Failed`, so no attempt can exceed the
ceiling.) -/
theorem retry_count_bounded :
    ∀ (s : SchedulerState), Reachable s →
    ∀ sch ∈ s.schedules,
      sch.retryCount ≤ sch.maxRetries
      ∧ (sch.maxRetries < sch.retryCount →
          sch.status = ContentStatus.failed) := by
  intro s hs
  induction hs with
  | init => intro sch h; simp [initState] at h
  | schedulePost s p t chat content media hr ih =>
      intro sch h
      exact ih sch (by simpa [SchedulerService.schedulePost] using h)
  | scheduleRecurring s p expr chat content tz ff jid s' hr hok ih =>
      intro sch h
      rw [scheduleRecurring_ok_schedules s p expr chat content tz ff jid
        s' hok] at h
      exact ih sch h
  | cancel s p hr ih =>
      intro sch h
      rw [cancel_preserves_schedules] at h
      exact ih sch h
  | createSchedule s p t hr ih =>
      intro sch h
      rcases List.mem_cons.mp h with h1 | h2
      · subst h1
        refine ⟨by simp [mkSchedule], ?_⟩
        intro hlt
        simp [mkSchedule] at hlt
      · exact ih sch h2
  | tick s h now oc nf hr ih =>
      intro sch hm
      exact ih sch (by simpa [SchedulerService.runOnce] using hm)

/-- Witness for C1: the invariant instantiated at the reachable state with
one freshly created `Schedule` row. -/
theorem retry_count_bounded_witness :
    (mkSchedule 1 100).retryCount ≤ (mkSchedule 1 100).maxRetries
    ∧ ((mkSchedule 1 100).maxRetries < (mkSchedule 1 100).retryCount →
        (mkSchedule 1 100).status = ContentStatus.failed) :=
  retry_count_bounded _
    (Reachable.createSchedule initState 1 100 Reachable.init)
    (mkSchedule 1 100) (List.mem_cons_self _ _)

/-- The state after registering the one-shot job of post 1 for instant
100. -/
def onceFailState : SchedulerState :=
  (SchedulerService.schedulePost initState 1 100 "chat1" "hello" []).2

/-- The tick at instant 150 in which post 1's delivery attempt fails
transiently (HTTP 500 from the API). -/
def onceFailRun : SchedulerState × List (String × PublishResult) :=
  SchedulerService.runOnce defaultSettings onceFailState 150
    (fun _ => HttpOutcome.response 500) (fun _ => 0)

/-- Counterexample to C4: post 1's job (with `retry_count = 0 ≤ 3 =
max_retries`) fails transiently at `now = 150`, yet afterwards the store
holds no job for it at all -- nothing was rescheduled at `now + delay`, at
any delay; the handler's failure was even reported as a normal completion
of the callback. -/
theorem no_backoff_reschedule_counterexample :
    onceFailRun.1.jobs = []
    ∧ (¬ ∃ j ∈ onceFailRun.1.jobs, j.postId = 1)
    ∧ onceFailRun.2 = [(jobIdOnce 1 100, PublishResult.ok)] := by
  decide

/-- C4 as amended: a transient delivery failure triggers no retry.  The
handler's `False` result is ignored by `_publish_post`, no backoff delay
is computed, and whatever the delivery outcome the fired one-shot job is
simply removed from the store -- it is not rescheduled -- while the
`Schedule` rows (the retry bookkeeping) stay untouched; exactly one
delivery attempt is made for it in the tick. -/
theorem transient_failure_no_retry :
    ∀ (h : Settings) (s : SchedulerState) (now : Int)
      (oc : String → HttpOutcome) (nf : String → Int) (j : ApJob)
      (t tf : Int),
    j ∈ s.jobs → j.trigger = Trigger.date t → j.nextRunTime = some tf →
    tf ≤ now →
    j ∉ (SchedulerService.runOnce h s now oc nf).1.jobs
    ∧ (SchedulerService.runOnce h s now oc nf).1.schedules = s.schedules
    ∧ (j.id, (SchedulerService.publishPost h j.postId j.chatId j.content
          j.mediaUrls (oc j.id)).2)
        ∈ (SchedulerService.runOnce h s now oc nf).2 := by
  intro h s now oc nf j t tf hj htr hnr hle
  have hdue : j ∈ s.listDue now := by
    simp only [SchedulerState.listDue]
    refine List.mem_filter.mpr ⟨hj, ?_⟩
    rw [hnr]
    exact decide_eq_true hle
  refine ⟨?_, rfl, ?_⟩
  · intro hmem
    simp only [SchedulerService.runOnce] at hmem
    obtain ⟨a, ha, hfa⟩ := List.mem_filterMap.mp hmem
    by_cases hany : ((s.listDue now).any fun d => d.id == a.id) = true
    · rw [if_pos hany] at hfa
      cases htra : a.trigger with
      | date rt => rw [htra] at hfa; cases hfa
      | cron spec tz =>
          rw [htra] at hfa
          injection hfa with hfa
          rw [← hfa] at htr
          simp [htra] at htr
    · rw [if_neg hany] at hfa
      injection hfa with hfa
      subst hfa
      exact hany (List.any_eq_true.mpr ⟨a, hdue, by simp⟩)
  · simp only [SchedulerService.runOnce]
    exact List.mem_map.mpr ⟨j, hdue, rfl⟩

/-- Witness for the amended C4: post 1's job is gone from the store after
its transiently failing tick. -/
theorem transient_failure_no_retry_witness :
    ({ id := jobIdOnce 1 100, postId := 1, trigger := Trigger.date 100,
       nextRunTime := some 100, chatId := "chat1", content := "hello",
       mediaUrls := [] } : ApJob)
      ∉ (SchedulerService.runOnce defaultSettings onceFailState 150
          (fun _ => HttpOutcome.response 500) (fun _ => 0)).1.jobs :=
  (transient_failure_no_retry defaultSettings onceFailState 150
    (fun _ => HttpOutcome.response 500) (fun _ => 0) _ 100 100
    (by decide) rfl rfl (by decide)).1

/-- The state after registering post 2's one-shot job together with its
`Schedule` row (created with the model's column defaults). -/
def permFailState : SchedulerState :=
  { (SchedulerService.schedulePost initState 2 100 "chat2" "text2" []).2
      with schedules := [mkSchedule 2 100] }

/-- The tick at instant 150 in which post 2's delivery fails permanently
(HTTP 400 from the API). -/
def permFailRun : SchedulerState × List (String × PublishResult) :=
  SchedulerService.runOnce defaultSettings permFailState 150
    (fun _ => HttpOutcome.response 400) (fun _ => 0)

/-- Counterexample to C5: post 2's delivery attempt fails with a permanent
(HTTP 400) error, the handler reports `False`, yet the job does not
transition to `Failed`: its `Schedule` row keeps `status = scheduled`, and
the callback even completes normally because the boolean is discarded. -/
theorem permanent_failure_not_failed_counterexample :
    (TelegramHandler.sendMessage defaultSettings "chat2" "text2"
        (HttpOutcome.response 400)).2 = false
    ∧ permFailRun.1.schedules = [mkSchedule 2 100]
    ∧ (¬ ∃ sch ∈ permFailRun.1.schedules,
          sch.status = ContentStatus.failed)
    ∧ permFailRun.2 = [(jobIdOnce 2 100, PublishResult.ok)] := by
  decide

/-- C5 as amended: on a permanently failing delivery (any non-200 status)
the handler returns `False`; `_publish_post` discards that boolean and
completes normally, so the job never transitions to `Failed` -- the
`Schedule` rows, including their `status` and `retry_count`, are exactly
what they were before the tick.  It is true that no backoff delay is
incurred and `retry_count` stays 0, but only because no failure of any
kind is acted upon (the handler reports no Transient/Permanent
distinction at all). -/
theorem permanent_failure_ignored :
    ∀ (h : Settings) (s : SchedulerState) (now : Int) (nf : String → Int)
      (status : Nat) (j : ApJob) (tf : Int),
    status ≠ 200 → j ∈ s.jobs → j.mediaUrls = [] →
    j.nextRunTime = some tf → tf ≤ now →
    (TelegramHandler.sendMessage h j.chatId j.content
        (HttpOutcome.response status)).2 = false
    ∧ (SchedulerService.runOnce h s now
          (fun _ => HttpOutcome.response status) nf).1.schedules
        = s.schedules
    ∧ (j.id, PublishResult.ok)
        ∈ (SchedulerService.runOnce h s now
            (fun _ => HttpOutcome.response status) nf).2 := by
  intro h s now nf status j tf hst hj hm hnr hle
  have hdue : j ∈ s.listDue now := by
    simp only [SchedulerState.listDue]
    refine List.mem_filter.mpr ⟨hj, ?_⟩
    rw [hnr]
    exact decide_eq_true hle
  refine ⟨?_, rfl, ?_⟩
  · simp [TelegramHandler.sendMessage, hst]
  · simp only [SchedulerService.runOnce]
    refine List.mem_map.mpr ⟨j, hdue, ?_⟩
    rw [hm]
    rfl

/-- Witness for the amended C5: post 2's permanently failing tick leaves
its `Schedule` row untouched and records a normal callback completion. -/
theorem permanent_failure_ignored_witness :
    (SchedulerService.runOnce defaultSettings permFailState 150
        (fun _ => HttpOutcome.response 400) (fun _ => 0)).1.schedules
      = permFailState.schedules
    ∧ (jobIdOnce 2 100, PublishResult.ok)
        ∈ (SchedulerService.runOnce defaultSettings permFailState 150
            (fun _ => HttpOutcome.response 400) (fun _ => 0)).2 :=
  ⟨(permanent_failure_ignored defaultSettings permFailState 150
      (fun _ => 0) 400
      { id := jobIdOnce 2 100, postId := 2, trigger := Trigger.date 100,
        nextRunTime := some 100, chatId := "chat2", content := "text2",
        mediaUrls := [] } 100
      (by decide) (by decide) rfl rfl (by decide)).2.1,
   (permanent_failure_ignored defaultSettings permFailState 150
      (fun _ => 0) 400
      { id := jobIdOnce 2 100, postId := 2, trigger := Trigger.date 100,
        nextRunTime := some 100, chatId := "chat2", content := "text2",
        mediaUrls := [] } 100
      (by decide) (by decide) rfl rfl (by decide)).2.2⟩

end ContentFactory
